import Mathlib

/-
  Verification development for the sklearn-porter repository.

  Shallow embedding of the two source files:
    sklearn_porter/Porter.py
    sklearn_porter/estimator/GaussianNB/__init__.py

  Python strings are modelled as Lean String values, with the Python string
  operations used by the code (lower, capitalize, strip, split, format)
  reimplemented by structural recursion over the character list so that the
  kernel can evaluate them.  External effects of Porter.predict and
  Porter.test_dependencies (process spawns, file writes) are modelled as an
  explicit chronological event trace, and the outside world (process outputs)
  as an explicit environment argument.
-/

/-- Python str.lower on a character list (ASCII; the repository only uses
ASCII class and language names). -/
def pyLowerL (cs : List Char) : List Char := cs.map Char.toLower

/-- Python str.lower. -/
def pyLower (s : String) : String := String.mk (pyLowerL s.data)

/-- Python str.capitalize: first character upper-cased, the rest lower-cased. -/
def pyCapitalize (s : String) : String :=
  match s.data with
  | [] => ""
  | c :: cs => String.mk (c.toUpper :: cs.map Char.toLower)

/-- Whitespace characters recognised by Python str.strip and str.split. -/
def isPyWS (c : Char) : Bool := c == ' ' || c == '\t' || c == '\n' || c == '\r'

/-- Python str.strip on a character list: drop leading and trailing whitespace. -/
def pyStripL (cs : List Char) : List Char :=
  ((cs.dropWhile isPyWS).reverse.dropWhile isPyWS).reverse

/-- Python str.strip. -/
def pyStrip (s : String) : String := String.mk (pyStripL s.data)

/-- Python str.split with no argument, on a character list: split on runs of
whitespace, dropping empty pieces. -/
def pySplitL (cs : List Char) : List (List Char) :=
  match cs with
  | [] => []
  | c :: rest =>
    if isPyWS c then pySplitL rest
    else
      match pySplitL rest with
      | [] => [[c]]
      | w :: ws => if isPyWS (rest.headD ' ') then [c] :: w :: ws else (c :: w) :: ws

/-- Python str.split with no argument. -/
def pySplit (s : String) : List String := (pySplitL s.data).map String.mk

/-- Python str.format with positional auto-numbered fields, on character
lists: every empty brace pair is replaced by the argument.  When the
template holds no brace pair the result is the template unchanged, which is
exactly what matters for the probe-loop defect in Porter.test_dependencies. -/
def pyFormatL (tmpl arg : List Char) : List Char :=
  match tmpl with
  | [] => []
  | c :: d :: rest =>
    if c == '\x7b' && d == '\x7d' then arg ++ pyFormatL rest arg
    else c :: pyFormatL (d :: rest) arg
  | [c] => [c]

/-- Python str.format with a single positional argument. -/
def pyFormat (tmpl arg : String) : String := String.mk (pyFormatL tmpl.data arg.data)

/-- Whether pat occurs as a contiguous substring of the character list. -/
def containsSubL (pat : List Char) : List Char → Bool
  | [] => pat.isEmpty
  | c :: rest => pat.isPrefixOf (c :: rest) || containsSubL pat rest

/-- Whether pat occurs as a contiguous substring of s. -/
def strContains (s pat : String) : Bool := containsSubL pat.data s.data

namespace Porter

/-- The supported target languages, from the Porter constructor docstring. -/
def supportedLanguages : List String := ["c", "go", "java", "js", "php", "ruby"]

/-- The suffix dictionary of Porter.get_filename; dict.get(lang, lang)
falls back to the language string itself. -/
def suffixMap : String → String
  | "c" => "c"
  | "java" => "java"
  | "js" => "js"
  | "go" => "go"
  | "php" => "php"
  | "ruby" => "rb"
  | lang => lang

/-- Porter.get_filename: lower-case the class name, capitalize it when the
target language is java, and append the language suffix. -/
def get_filename (class_name language : String) : String :=
  (if language == "java" then pyCapitalize (pyLower class_name)
   else pyLower class_name)
  ++ "." ++ suffixMap language

/-- Porter.get_commands: the compilation command dictionary (comp_vars) and
the execution command dictionary (exec_vars), both looked up with
dict.get(lang, None); cname is the lower-cased class name, and the java
execution command capitalizes it again. -/
def get_commands (filename class_name language : String) :
    Option String × Option String :=
  let comp_cmd : Option String :=
    match language with
    | "c" => some ("gcc " ++ filename ++ " -lm -o " ++ pyLower class_name)
    | "java" => some ("javac " ++ filename)
    | _ => none
  let exec_cmd : Option String :=
    match language with
    | "c" => some ("./" ++ pyLower class_name)
    | "java" => some ("java -classpath . " ++ pyCapitalize (pyLower class_name))
    | "js" => some ("node " ++ filename)
    | "php" => some ("php -f " ++ filename)
    | "ruby" => some ("ruby " ++ filename)
    | _ => none
  (comp_cmd, exec_cmd)

/-- The captured output of one availability probe (subp.check_output), as
seen by Porter.test_dependencies: the raw captured text, plus the CPython
object identity of the string object produced by available.strip().  The
identity matters because the source compares with the Python operator is,
not with value equality. -/
structure ProbeResult where
  raw : String
  strippedOid : Nat
deriving DecidableEq

/-- The object identity of the interned string literal that denotes
availability in the source. -/
def sentinelOid : Nat := 0

/-- The availability decision of Porter.test_dependencies, as written in the
source: available.strip() is compared to the literal with the identity
operator is, which holds only when the stripped output is the very same
object as the interned literal (then necessarily with the same value). -/
def availableCheck (r : ProbeResult) : Bool :=
  r.strippedOid == sentinelOid && pyStrip r.raw == "1"

/-- The value-equality availability decision the specification requires:
the stripped captured output equals the sentinel string by value. -/
def availableCheckSpec (r : ProbeResult) : Bool :=
  pyStrip r.raw == "1"

/-- The depends dictionary of Porter.test_dependencies.  The entry for go is
commented out in the source, so dict.get returns None for it. -/
def dependsMap : String → Option (List String)
  | "c" => some ["gcc"]
  | "java" => some ["java", "javac"]
  | "js" => some ["node"]
  | "php" => some ["php"]
  | "ruby" => some ["ruby"]
  | _ => none

/-- The shell probe template of Porter.test_dependencies, verbatim from the
source (including its unusual 2/dev/null redirection). -/
def probeTemplate : String := "if hash \x7b\x7d 2/dev/null; then echo 1; else echo 0; fi"

/-- How the dependency phase of a call ends: all probes passed, one probe
reported a missing executable (SystemError), or the language has no entry in
the depends dictionary so that None + list raises a TypeError. -/
inductive DepOutcome
  | ok
  | missing (exe : String)
  | typeError
deriving DecidableEq

/-- The probe loop of Porter.test_dependencies.  Faithful to the source
defect: the loop variable cmd is reassigned to its own formatted value, so
after the first iteration the template no longer holds a brace pair and
every later format call returns the first command unchanged.  Returns the
chronological list of shell commands actually run and the outcome. -/
def depsLoop (oracle : String → ProbeResult) :
    String → List String → List String × DepOutcome
  | _, [] => ([], DepOutcome.ok)
  | cmdState, exe :: rest =>
    let c := pyFormat cmdState exe
    if availableCheck (oracle c) then
      let r := depsLoop oracle c rest
      (c :: r.1, r.2)
    else ([c], DepOutcome.missing exe)

/-- Porter.test_dependencies: look up the dependency list for the language,
append the filesystem utilities, and probe.  The oracle maps each shell
command to the probe result the environment would produce. -/
def test_dependencies (oracle : String → ProbeResult) (language : String) :
    List String × DepOutcome :=
  match dependsMap language with
  | none => ([], DepOutcome.typeError)
  | some ds => depsLoop oracle probeTemplate (ds ++ ["mkdir", "rm"])

end Porter

namespace GaussianNB

/-- EstimatorBase.load_templates as used by GaussianNB.port: resolves the
template table for a language; a failure to load is modelled as none. -/
def load_templates (available : String → Option (List String))
    (language : String) : Option (List String) :=
  available language

/-- GaussianNB.port: loads the templates for the target language (and prints
their keys, a side effect without influence on the result), then returns the
string representation of the wrapped estimator.  The method, number-format,
class-name and method-name arguments are accepted but never read. -/
def port (available : String → Option (List String)) (estimatorStr : String)
    (method : String) (toLang : String) (with_num_format : Int → String)
    (with_class_name : Option String) (with_method_name : Option String) :
    Option String :=
  match load_templates available toLang with
  | none => none
  | some _ => some estimatorStr

end GaussianNB

namespace Porter

/-- The externally visible effects of a Porter.predict call, in
chronological order: the shell probes of test_dependencies, the rm -rf and
mkdir calls on the workspace, the write of the transpiled source file, the
compiler invocation, and the per-row execution of the ported model. -/
inductive Event
  | spawnProbe (cmd : String)
  | spawnRm (dir : String)
  | spawnMkdir (dir : String)
  | writeFile (path : String) (content : String)
  | spawnCompile (args : List String)
  | spawnExec (args : List String)
deriving DecidableEq

/-- The per-instance state of a Porter object that predict reads: the target
language, the SUPPORTED_METHODS list of the chosen template class, and the
tested_env_dependencies flag set to false by the constructor. -/
structure PorterConfig where
  language : String
  supportedMethods : List String
  testedEnvDependencies : Bool
deriving DecidableEq

/-- The outside world a predict call interacts with: the probe oracle for
test_dependencies, the rendered model text produced by export as a function
of class name and method name, and the captured-and-parsed output of one
execution of the ported model (error covers a non-zero exit of
subp.check_output as well as an unparsable int). -/
structure Env where
  probe : String → ProbeResult
  render : String → String → String
  execOut : List String → Except Unit Int

/-- The input X of predict: a single 1-D feature vector or a 2-D matrix of
rows.  Features are carried as their Python string form, since predict
passes str(f).strip() of each feature as a process argument. -/
inductive XInput
  | single (row : List String)
  | batch (rows : List (List String))

/-- The value predict returns: one label for a 1-D input, an ordered label
sequence for a 2-D input. -/
inductive PredResult
  | single (y : Int)
  | batch (ys : List Int)
deriving DecidableEq

/-- How a predict call ends: a return value, a SystemError or TypeError
raised in the dependency phase, the AttributeError for an unsupported
method, or an exception raised while executing the ported model. -/
inductive POutcome
  | ok (y : PredResult)
  | errToolchain
  | errUnsupported
  | errExec
deriving DecidableEq

/-- The dependency phase of predict: test_dependencies runs unless the
tested_env_dependencies flag is already set.  The flag is never set to true
anywhere in the source, so the guard only matters for the constructor
default false. -/
def depsPhase (env : Env) (cfg : PorterConfig) : List String × DepOutcome :=
  if cfg.testedEnvDependencies then ([], DepOutcome.ok)
  else test_dependencies env.probe cfg.language

/-- The probe events of the dependency phase. -/
def depsTrace (env : Env) (cfg : PorterConfig) : List Event :=
  (depsPhase env cfg).1.map Event.spawnProbe

/-- The argument list of the execution command: predict wraps the
possibly-None execution command in str() and splits it, so a missing
command (the go case) degenerates to the single token None. -/
def execArgsFor (cfg : PorterConfig) (class_name : String) : List String :=
  pySplit
    (match (get_commands (get_filename class_name cfg.language)
              class_name cfg.language).2 with
     | none => "None"
     | some s => s)

/-- The compiler invocation, present only when comp_vars has an entry for
the language; subp.call ignores the exit status, so compilation never
aborts the call. -/
def compEventsFor (cfg : PorterConfig) (class_name : String) : List Event :=
  match (get_commands (get_filename class_name cfg.language)
           class_name cfg.language).1 with
  | none => []
  | some c => [Event.spawnCompile (pySplit c)]

/-- The workspace setup and export effects of predict, in source order:
rm -rf on the workspace path, mkdir, the write of the transpiled model to
tnp_dir/filename, then the compile step when the language has one. -/
def setupEvents (env : Env) (cfg : PorterConfig)
    (class_name method_name tnp_dir : String) : List Event :=
  Event.spawnRm tnp_dir :: Event.spawnMkdir tnp_dir ::
    Event.writeFile (tnp_dir ++ "/" ++ get_filename class_name cfg.language)
      (env.render class_name method_name) ::
    compEventsFor cfg class_name

/-- The final cleanup of predict: rm -rf on the workspace unless the caller
asked to keep it.  Reached only on the successful path. -/
def cleanupEvents (tnp_dir : String) (keep_tmp_dir : Bool) : List Event :=
  if keep_tmp_dir then [] else [Event.spawnRm tnp_dir]

/-- The row loop of predict for a 2-D input: one execution process per row,
sequentially, each receiving the stripped string form of the features of
its row; the first failing row aborts the loop with the exception of
subp.check_output or int().  Returns the exec events and the collected
labels, or the exec events up to and including the failing row. -/
def runRows (env : Env) (execArgs : List String) :
    List (List String) → Except (List Event) (List Event × List Int)
  | [] => Except.ok ([], [])
  | r :: rs =>
    match env.execOut (execArgs ++ r.map pyStrip) with
    | Except.error _ => Except.error [Event.spawnExec (execArgs ++ r.map pyStrip)]
    | Except.ok v =>
      match runRows env execArgs rs with
      | Except.error tr => Except.error (Event.spawnExec (execArgs ++ r.map pyStrip) :: tr)
      | Except.ok (tr, ys) => Except.ok (Event.spawnExec (execArgs ++ r.map pyStrip) :: tr, v :: ys)

/-- Porter.predict: dependency phase, support check, workspace setup,
export, optional compilation, per-row execution, conditional cleanup.
Returns the chronological event trace, the outcome, and the Porter state
after the call (the source never writes the tested_env_dependencies flag,
so the state is returned unchanged). -/
def predict (env : Env) (cfg : PorterConfig) (X : XInput)
    (class_name method_name tnp_dir : String) (keep_tmp_dir : Bool) :
    List Event × POutcome × PorterConfig :=
  match (depsPhase env cfg).2 with
  | DepOutcome.missing _ => (depsTrace env cfg, POutcome.errToolchain, cfg)
  | DepOutcome.typeError => (depsTrace env cfg, POutcome.errToolchain, cfg)
  | DepOutcome.ok =>
    if cfg.supportedMethods.contains "predict" then
      match X with
      | XInput.single row =>
        match env.execOut (execArgsFor cfg class_name ++ row.map pyStrip) with
        | Except.error _ =>
          (depsTrace env cfg ++ setupEvents env cfg class_name method_name tnp_dir
             ++ [Event.spawnExec (execArgsFor cfg class_name ++ row.map pyStrip)],
           POutcome.errExec, cfg)
        | Except.ok v =>
          (depsTrace env cfg ++ setupEvents env cfg class_name method_name tnp_dir
             ++ [Event.spawnExec (execArgsFor cfg class_name ++ row.map pyStrip)]
             ++ cleanupEvents tnp_dir keep_tmp_dir,
           POutcome.ok (PredResult.single v), cfg)
      | XInput.batch rows =>
        match runRows env (execArgsFor cfg class_name) rows with
        | Except.error trE =>
          (depsTrace env cfg ++ setupEvents env cfg class_name method_name tnp_dir ++ trE,
           POutcome.errExec, cfg)
        | Except.ok (trR, ys) =>
          (depsTrace env cfg ++ setupEvents env cfg class_name method_name tnp_dir ++ trR
             ++ cleanupEvents tnp_dir keep_tmp_dir,
           POutcome.ok (PredResult.batch ys), cfg)
    else (depsTrace env cfg, POutcome.errUnsupported, cfg)

/-- One step of the workspace-directory state: rm -rf removes it, mkdir
creates it, every other effect leaves it alone. -/
def dirStep (d : String) (st : Bool) : Event → Bool
  | Event.spawnRm e => if e == d then false else st
  | Event.spawnMkdir e => if e == d then true else st
  | Event.spawnProbe _ => st
  | Event.writeFile _ _ => st
  | Event.spawnCompile _ => st
  | Event.spawnExec _ => st

/-- Whether the directory d exists after the trace, starting from init. -/
def dirStateAfter (d : String) (init : Bool) : List Event → Bool
  | [] => init
  | e :: tr => dirStateAfter d (dirStep d init e) tr

/-- An event that neither removes nor creates the directory d. -/
def dirNeutral (d : String) : Event → Bool
  | Event.spawnRm e => e != d
  | Event.spawnMkdir e => e != d
  | Event.spawnProbe _ => true
  | Event.writeFile _ _ => true
  | Event.spawnCompile _ => true
  | Event.spawnExec _ => true

/-- Whether an event is a dependency-probe process spawn. -/
def isProbeEvent : Event → Bool
  | Event.spawnProbe _ => true
  | Event.spawnRm _ => false
  | Event.spawnMkdir _ => false
  | Event.writeFile _ _ => false
  | Event.spawnCompile _ => false
  | Event.spawnExec _ => false

/-- The configuration errors the Porter constructor can raise, in source
order: unknown model class, no template directory for the language,
method not in SUPPORTED_METHODS. -/
inductive InitError
  | unsupportedAlgorithm
  | unsupportedLanguage
  | unsupportedMethod
deriving DecidableEq

/-- The Porter constructor.  The import of the model class and the template
directory lookup (os.path.isdir, a read-only filesystem probe) are
abstracted as the booleans knownAlgorithm and hasTemplateDir.  The
constructor creates no file and spawns no process; it ends with the
tested_env_dependencies flag set to false. -/
def initPorter (knownAlgorithm : Bool) (hasTemplateDir : Bool)
    (language : String) (supportedMethods : List String) (method : String) :
    Except InitError PorterConfig :=
  if knownAlgorithm = false then Except.error InitError.unsupportedAlgorithm
  else if hasTemplateDir = false then Except.error InitError.unsupportedLanguage
  else if supportedMethods.contains method = false then
    Except.error InitError.unsupportedMethod
  else Except.ok { language := language, supportedMethods := supportedMethods,
                   testedEnvDependencies := false }

/-- A probe oracle whose stripped output is the very object the source
compares against: every probe reports available.  Models the interpreter
states in which the identity comparison happens to succeed. -/
def goodProbe : String → ProbeResult := fun _ => { raw := "1\n", strippedOid := sentinelOid }

/-- A probe result whose stripped value is the sentinel string but whose
stripped object is a fresh one, as produced by an interpreter that does not
intern the result of strip. -/
def identProbe : ProbeResult := { raw := "1\n", strippedOid := 1 }

/-- An execution oracle that succeeds with the argument count as label. -/
def okExec : List String → Except Unit Int := fun args => Except.ok (Int.ofNat args.length)

/-- An execution oracle whose process always fails. -/
def badExec : List String → Except Unit Int := fun _ => Except.error ()

/-- An environment where every probe passes and every execution succeeds. -/
def goodEnv : Env := { probe := goodProbe, render := fun _ _ => "model", execOut := okExec }

/-- An environment where every probe passes but execution fails. -/
def badEnv : Env := { probe := goodProbe, render := fun _ _ => "model", execOut := badExec }

/-- A Porter state for a js target whose template supports predict, fresh
from the constructor. -/
def cfgJs : PorterConfig :=
  { language := "js", supportedMethods := ["predict"], testedEnvDependencies := false }

/-- A Porter state for a js target whose template does not support
predict. -/
def cfgNoPredict : PorterConfig :=
  { language := "js", supportedMethods := ["predict_proba"], testedEnvDependencies := false }

end Porter

/-- C5: get_filename lower-cases the class name and appends the language
suffix, with java as the single capitalizing special case; in particular
class Brain targeting java yields Brain.java while every other supported
language yields base name brain with its own suffix. -/
theorem c5_get_filename_lowercase_with_java_capitalized : ∀ cn : String,
    Porter.get_filename cn "java" = pyCapitalize (pyLower cn) ++ "." ++ "java"
    ∧ Porter.get_filename cn "c" = pyLower cn ++ "." ++ "c"
    ∧ Porter.get_filename cn "go" = pyLower cn ++ "." ++ "go"
    ∧ Porter.get_filename cn "js" = pyLower cn ++ "." ++ "js"
    ∧ Porter.get_filename cn "php" = pyLower cn ++ "." ++ "php"
    ∧ Porter.get_filename cn "ruby" = pyLower cn ++ "." ++ "rb"
    ∧ Porter.get_filename "Brain" "java" = "Brain.java"
    ∧ Porter.get_filename "Brain" "c" = "brain.c"
    ∧ Porter.get_filename "Brain" "go" = "brain.go"
    ∧ Porter.get_filename "Brain" "js" = "brain.js"
    ∧ Porter.get_filename "Brain" "php" = "brain.php"
    ∧ Porter.get_filename "Brain" "ruby" = "brain.rb" :=
  fun _ => ⟨rfl, rfl, rfl, rfl, rfl, rfl,
    by decide, by decide, by decide, by decide, by decide, by decide⟩

/-- C2 (code defect): test_dependencies decides availability by object
identity, not value equality.  A probe whose captured output strips to the
sentinel value 1 but is not the interned literal object is reported
unavailable, and the call raises the missing-toolchain error although the
output is value-equal to the sentinel. -/
theorem c2_identity_comparison_rejects_value_equal_output :
    pyStrip Porter.identProbe.raw = "1"
    ∧ Porter.availableCheckSpec Porter.identProbe = true
    ∧ Porter.availableCheck Porter.identProbe = false
    ∧ Porter.test_dependencies (fun _ => Porter.identProbe) "js"
        = (["if hash node 2/dev/null; then echo 1; else echo 0; fi"],
           Porter.DepOutcome.missing "node") := by
  decide

/-- C4 (code defect): the probe loop reassigns its command template to the
formatted command, so for java only the first executable is ever named in a
probe; the probes for javac, mkdir and rm rerun the java command verbatim,
and no probe command ever names javac.  For go the depends lookup returns
None and the call dies with a TypeError before any probe runs. -/
theorem c4_probe_commands_reuse_first_executable :
    Porter.test_dependencies Porter.goodProbe "java"
      = (List.replicate 4 "if hash java 2/dev/null; then echo 1; else echo 0; fi",
         Porter.DepOutcome.ok)
    ∧ strContains "if hash java 2/dev/null; then echo 1; else echo 0; fi" "javac" = false
    ∧ Porter.test_dependencies Porter.goodProbe "go" = ([], Porter.DepOutcome.typeError) := by
  decide

/-- C8 counterexample: go is listed among the supported target languages,
yet get_commands maps it to no execution command at all (and no compilation
command), refuting the claim that every supported language has a non-null
execute command. -/
theorem c8_counterexample_go_has_no_commands :
    Porter.supportedLanguages.contains "go" = true
    ∧ Porter.get_commands "brain.go" "Brain" "go" = (none, none) := by
  decide

/-- C8 amended: every supported language except go maps to a non-null
execute command, and the two compiled languages c and java map to non-null
compile commands referencing the filename (and, for c, the lower-cased
class name); go maps to no command of either kind. -/
theorem c8_amended_commands : ∀ fname cn : String,
    Porter.get_commands fname cn "c"
      = (some ("gcc " ++ fname ++ " -lm -o " ++ pyLower cn),
         some ("./" ++ pyLower cn))
    ∧ Porter.get_commands fname cn "java"
      = (some ("javac " ++ fname),
         some ("java -classpath . " ++ pyCapitalize (pyLower cn)))
    ∧ Porter.get_commands fname cn "js" = (none, some ("node " ++ fname))
    ∧ Porter.get_commands fname cn "php" = (none, some ("php -f " ++ fname))
    ∧ Porter.get_commands fname cn "ruby" = (none, some ("ruby " ++ fname))
    ∧ Porter.get_commands fname cn "go" = (none, none) :=
  fun _ _ => ⟨rfl, rfl, rfl, rfl, rfl, rfl⟩

/-- C7 (code defect): the tested_env_dependencies flag is never set to
true, so the toolchain probe is not cached: after a first predict call on a
fresh instance completes its probe, the state still carries a false flag
and a second predict call on the returned state spawns probe processes
again. -/
theorem c7_probe_respawns_on_every_predict_call :
    ((Porter.predict Porter.goodEnv Porter.cfgJs (Porter.XInput.single ["1"])
        "Brain" "predict" "tmp" false).2.2).testedEnvDependencies = false
    ∧ (Porter.predict Porter.goodEnv Porter.cfgJs (Porter.XInput.single ["1"])
        "Brain" "predict" "tmp" false).1.any Porter.isProbeEvent = true
    ∧ (Porter.predict Porter.goodEnv
        ((Porter.predict Porter.goodEnv Porter.cfgJs (Porter.XInput.single ["1"])
           "Brain" "predict" "tmp" false).2.2)
        (Porter.XInput.single ["1"]) "Brain" "predict" "tmp" false).1.any
        Porter.isProbeEvent = true := by
  decide

/-- C3 counterexample: with a template that does not support predict, the
predict call does end in the unsupported-method error, but only after the
dependency probes have spawned external processes, refuting the claim that
the failure precedes every process spawn. -/
theorem c3_counterexample_probe_spawns_before_method_error :
    (Porter.predict Porter.goodEnv Porter.cfgNoPredict (Porter.XInput.single ["1"])
       "Brain" "predict" "tmp" false).2.1 = Porter.POutcome.errUnsupported
    ∧ (Porter.predict Porter.goodEnv Porter.cfgNoPredict (Porter.XInput.single ["1"])
       "Brain" "predict" "tmp" false).1.any Porter.isProbeEvent = true := by
  decide

/-- C6 counterexample: with the keep flag unset and an execution that
fails, the predict call aborts with the execution error and the workspace
directory is still present at the end of the trace: the final cleanup is
not reached on the error path. -/
theorem c6_counterexample_workspace_survives_failed_call :
    (Porter.predict Porter.badEnv Porter.cfgJs (Porter.XInput.single ["1"])
       "Brain" "predict" "tmp" false).2.1 = Porter.POutcome.errExec
    ∧ Porter.dirStateAfter "tmp" false
        (Porter.predict Porter.badEnv Porter.cfgJs (Porter.XInput.single ["1"])
           "Brain" "predict" "tmp" false).1 = true := by
  decide

/-- C10: the return value of GaussianNB.port does not depend on the method,
number-format, class-name or method-name arguments: whenever template
loading succeeds for the target language, the call returns exactly the
string representation of the estimator, for any values of those
arguments. -/
theorem c10_port_ignores_naming_arguments
    (available : String → Option (List String)) (est lang : String)
    (t : List String) (h : available lang = some t)
    (m1 m2 : String) (f1 f2 : Int → String) (c1 c2 n1 n2 : Option String) :
    GaussianNB.port available est m1 lang f1 c1 n1 = some est
    ∧ GaussianNB.port available est m1 lang f1 c1 n1
        = GaussianNB.port available est m2 lang f2 c2 n2 := by
  simp [GaussianNB.port, GaussianNB.load_templates, h]

/-- Witness for C10 at a concrete estimator and language. -/
theorem c10_port_ignores_naming_arguments_witness :
    GaussianNB.port (fun _ => some ["predict"]) "GaussianNB()" "predict" "java"
        (fun _ => "0") none none = some "GaussianNB()"
    ∧ GaussianNB.port (fun _ => some ["predict"]) "GaussianNB()" "predict" "java"
        (fun _ => "0") none none
      = GaussianNB.port (fun _ => some ["predict"]) "GaussianNB()" "predict_proba" "java"
        (fun i => toString i) (some "Brain") (some "run") :=
  c10_port_ignores_naming_arguments (fun _ => some ["predict"]) "GaussianNB()" "java"
    ["predict"] rfl "predict" "predict_proba" (fun _ => "0") (fun i => toString i)
    none (some "Brain") none (some "run")

theorem runRows_ok_spec (env : Porter.Env) (ea : List String) :
    ∀ (rows : List (List String)) (trR : List Porter.Event) (ys : List Int),
      Porter.runRows env ea rows = Except.ok (trR, ys) →
      ys.length = rows.length ∧
      ∀ i (hi : i < rows.length) (hy : i < ys.length),
        env.execOut (ea ++ (rows.get ⟨i, hi⟩).map pyStrip)
          = Except.ok (ys.get ⟨i, hy⟩) := by
  intro rows
  induction rows with
  | nil =>
    intro trR ys h
    rw [Porter.runRows] at h
    simp only [Except.ok.injEq, Prod.mk.injEq] at h
    obtain ⟨-, rfl⟩ := h
    exact ⟨rfl, fun i hi hy => absurd hi (by simp)⟩
  | cons r rs ih =>
    intro trR ys h
    rw [Porter.runRows] at h
    split at h
    · exact absurd h (by simp)
    · rename_i v hv
      split at h
      · exact absurd h (by simp)
      · rename_i res tr0 ys0 hrec
        simp only [Except.ok.injEq, Prod.mk.injEq] at h
        obtain ⟨-, rfl⟩ := h
        obtain ⟨hlen, hidx⟩ := ih tr0 ys0 hrec
        refine ⟨by simpa using hlen, ?_⟩
        intro i hi hy
        cases i with
        | zero => simpa using hv
        | succ n =>
          have hn : n < rs.length := by simpa using hi
          have hyn : n < ys0.length := by simpa using hy
          simpa using hidx n hn hyn

theorem dirStateAfter_append (d : String) (tr1 tr2 : List Porter.Event) :
    ∀ init, Porter.dirStateAfter d init (tr1 ++ tr2)
      = Porter.dirStateAfter d (Porter.dirStateAfter d init tr1) tr2 := by
  induction tr1 with
  | nil => intro init; rfl
  | cons e tr ih =>
    intro init
    simp only [List.cons_append, Porter.dirStateAfter]
    exact ih _

theorem dirStep_neutral (d : String) (e : Porter.Event)
    (h : Porter.dirNeutral d e = true) (init : Bool) :
    Porter.dirStep d init e = init := by
  cases e with
  | spawnRm x =>
    simp only [Porter.dirNeutral, bne_iff_ne, ne_eq] at h
    simp [Porter.dirStep, h]
  | spawnMkdir x =>
    simp only [Porter.dirNeutral, bne_iff_ne, ne_eq] at h
    simp [Porter.dirStep, h]
  | spawnProbe c => rfl
  | writeFile p c => rfl
  | spawnCompile a => rfl
  | spawnExec a => rfl

theorem dirStateAfter_neutral (d : String) (tr : List Porter.Event)
    (h : ∀ e ∈ tr, Porter.dirNeutral d e = true) :
    ∀ init, Porter.dirStateAfter d init tr = init := by
  induction tr with
  | nil => intro init; rfl
  | cons e tr ih =>
    intro init
    rw [Porter.dirStateAfter,
        dirStep_neutral d e (h e (List.mem_cons_self e tr)) init]
    exact ih (fun x hx => h x (List.mem_cons_of_mem _ hx)) init

theorem probeTrace_neutral (d : String) (cmds : List String) :
    ∀ e ∈ cmds.map Porter.Event.spawnProbe, Porter.dirNeutral d e = true := by
  intro e he
  obtain ⟨c, -, rfl⟩ := List.mem_map.mp he
  rfl

theorem compEvents_neutral (d : String) (cfg : Porter.PorterConfig) (cn : String) :
    ∀ e ∈ Porter.compEventsFor cfg cn, Porter.dirNeutral d e = true := by
  intro e he
  rw [Porter.compEventsFor] at he
  split at he
  · exact absurd he (by simp)
  · simp only [List.mem_singleton] at he
    subst he
    rfl

theorem runRows_error_neutral (d : String) (env : Porter.Env) (ea : List String) :
    ∀ (rows : List (List String)) (trE : List Porter.Event),
      Porter.runRows env ea rows = Except.error trE →
      ∀ e ∈ trE, Porter.dirNeutral d e = true := by
  intro rows
  induction rows with
  | nil =>
    intro trE h
    rw [Porter.runRows] at h
    exact absurd h (by simp)
  | cons r rs ih =>
    intro trE h
    rw [Porter.runRows] at h
    split at h
    · simp only [Except.error.injEq] at h
      subst h
      intro e he
      simp only [List.mem_singleton] at he
      subst he
      rfl
    · split at h
      · rename_i tr0 hrec
        simp only [Except.error.injEq] at h
        subst h
        intro e he
        rcases List.mem_cons.mp he with rfl | he
        · rfl
        · exact ih tr0 hrec e he
      · exact absurd h (by simp)

theorem append_middle_decomp {α : Type} (A : List α) (x y : α) (B C : List α) :
    A ++ (x :: y :: B) ++ C = A ++ [x, y] ++ (B ++ C) := by
  simp [List.append_assoc]

theorem append_middle_decomp2 {α : Type} (A : List α) (x y : α) (B C D : List α) :
    A ++ (x :: y :: B) ++ C ++ D = A ++ [x, y] ++ (B ++ C ++ D) := by
  simp [List.append_assoc]

/-- C9: every predict call that passes the dependency phase and the method
check runs rm -rf on the caller-supplied workspace path and then recreates
it: the trace holds the rm and mkdir events on that path consecutively, on
the successful path and on the failing execution path alike, so any
pre-existing directory at that path is destroyed even when the call later
fails. -/
theorem c9_predict_unconditionally_clears_workspace
    (env : Porter.Env) (cfg : Porter.PorterConfig) (X : Porter.XInput)
    (cn mn dir : String) (keep : Bool) (tr : List Porter.Event)
    (out : Porter.POutcome) (cfg2 : Porter.PorterConfig)
    (h : Porter.predict env cfg X cn mn dir keep = (tr, out, cfg2))
    (h1 : out ≠ Porter.POutcome.errToolchain)
    (h2 : out ≠ Porter.POutcome.errUnsupported) :
    ∃ pre post,
      tr = pre ++ [Porter.Event.spawnRm dir, Porter.Event.spawnMkdir dir] ++ post := by
  unfold Porter.predict at h
  split at h
  · simp only [Prod.mk.injEq] at h
    obtain ⟨rfl, rfl, rfl⟩ := h
    exact absurd rfl h1
  · simp only [Prod.mk.injEq] at h
    obtain ⟨rfl, rfl, rfl⟩ := h
    exact absurd rfl h1
  · split at h
    · split at h
      · split at h
        · simp only [Prod.mk.injEq] at h
          obtain ⟨rfl, rfl, rfl⟩ := h
          exact ⟨_, _, append_middle_decomp _ _ _ _ _⟩
        · simp only [Prod.mk.injEq] at h
          obtain ⟨rfl, rfl, rfl⟩ := h
          exact ⟨_, _, append_middle_decomp2 _ _ _ _ _ _⟩
      · split at h
        · simp only [Prod.mk.injEq] at h
          obtain ⟨rfl, rfl, rfl⟩ := h
          exact ⟨_, _, append_middle_decomp _ _ _ _ _⟩
        · simp only [Prod.mk.injEq] at h
          obtain ⟨rfl, rfl, rfl⟩ := h
          exact ⟨_, _, append_middle_decomp2 _ _ _ _ _ _⟩
    · simp only [Prod.mk.injEq] at h
      obtain ⟨rfl, rfl, rfl⟩ := h
      exact absurd rfl h2

/-- C6 amended: with the keep flag unset, the workspace is deleted by the
end of the call on the successful path only; the cleanup is not guarded by
try/finally, so on a call that aborts with an execution failure the
workspace directory (holding the written source and any compiled artifact)
remains on disk after the call, whatever the keep flag. -/
theorem c6_amended_workspace_deleted_on_success_only :
    (∀ (env : Porter.Env) (cfg : Porter.PorterConfig) (X : Porter.XInput)
       (cn mn dir : String) (tr : List Porter.Event) (y : Porter.PredResult)
       (cfg2 : Porter.PorterConfig) (init : Bool),
       Porter.predict env cfg X cn mn dir false = (tr, Porter.POutcome.ok y, cfg2) →
       Porter.dirStateAfter dir init tr = false)
    ∧ (∀ (env : Porter.Env) (cfg : Porter.PorterConfig) (X : Porter.XInput)
       (cn mn dir : String) (keep : Bool) (tr : List Porter.Event)
       (cfg2 : Porter.PorterConfig) (init : Bool),
       Porter.predict env cfg X cn mn dir keep = (tr, Porter.POutcome.errExec, cfg2) →
       Porter.dirStateAfter dir init tr = true) := by
  constructor
  · intro env cfg X cn mn dir tr y cfg2 init h
    unfold Porter.predict at h
    split at h
    · simp at h
    · simp at h
    · split at h
      · split at h
        · split at h
          · simp at h
          · simp only [Prod.mk.injEq] at h
            obtain ⟨rfl, -, -⟩ := h
            simp [dirStateAfter_append, Porter.cleanupEvents,
                  Porter.dirStateAfter, Porter.dirStep]
        · split at h
          · simp at h
          · simp only [Prod.mk.injEq] at h
            obtain ⟨rfl, -, -⟩ := h
            simp [dirStateAfter_append, Porter.cleanupEvents,
                  Porter.dirStateAfter, Porter.dirStep]
      · simp at h
  · intro env cfg X cn mn dir keep tr cfg2 init h
    have hA : ∀ b, Porter.dirStateAfter dir b (Porter.depsTrace env cfg) = b :=
      dirStateAfter_neutral dir _ (probeTrace_neutral dir _)
    have hComp : ∀ b, Porter.dirStateAfter dir b (Porter.compEventsFor cfg cn) = b :=
      dirStateAfter_neutral dir _ (compEvents_neutral dir cfg cn)
    unfold Porter.predict at h
    split at h
    · simp at h
    · simp at h
    · split at h
      · split at h
        · split at h
          · simp only [Prod.mk.injEq] at h
            obtain ⟨rfl, -, -⟩ := h
            simp [dirStateAfter_append, Porter.setupEvents,
                  Porter.dirStateAfter, Porter.dirStep, hA, hComp]
          · simp at h
        · split at h
          · rename_i trE hrec
            have hE : ∀ b, Porter.dirStateAfter dir b trE = b :=
              dirStateAfter_neutral dir _ (runRows_error_neutral dir env _ _ trE hrec)
            simp only [Prod.mk.injEq] at h
            obtain ⟨rfl, -, -⟩ := h
            simp [dirStateAfter_append, Porter.setupEvents,
                  Porter.dirStateAfter, Porter.dirStep, hA, hComp, hE]
          · simp at h
      · simp at h

/-- C3 amended: an unsupported prediction method is a fatal configuration
error raised before any file is created — in the constructor it is raised
with no effectful step at all, and in predict the unsupported-method error
trace holds nothing but dependency-probe process spawns (no workspace
mutation, no file write, no compile or execute process) — but in predict
the dependency probes are spawned before the method check, so the error
does not precede every process spawn. -/
theorem c3_amended_method_error_before_files_after_probes :
    (∀ (lang : String) (sup : List String) (m : String),
       sup.contains m = false →
       Porter.initPorter true true lang sup m
         = Except.error Porter.InitError.unsupportedMethod)
    ∧ (∀ (env : Porter.Env) (cfg : Porter.PorterConfig) (X : Porter.XInput)
       (cn mn dir : String) (keep : Bool) (tr : List Porter.Event)
       (cfg2 : Porter.PorterConfig),
       Porter.predict env cfg X cn mn dir keep
         = (tr, Porter.POutcome.errUnsupported, cfg2) →
       tr.all Porter.isProbeEvent = true) := by
  constructor
  · intro lang sup m hm
    simp only [Porter.initPorter, hm]
    rfl
  · intro env cfg X cn mn dir keep tr cfg2 h
    unfold Porter.predict at h
    split at h
    · simp at h
    · simp at h
    · split at h
      · split at h
        · split at h <;> simp at h
        · split at h <;> simp at h
      · simp only [Prod.mk.injEq] at h
        obtain ⟨rfl, -, -⟩ := h
        rw [Porter.depsTrace]
        simp [List.all_eq_true, List.mem_map, Porter.isProbeEvent]

/-- C1: a predict call on a 2-D input that returns does so with one label
per input row, in order, and each label is exactly the label a predict call
on the same instance would return for that row supplied alone as a 1-D
feature vector with the same class name, method name, workspace path and
keep flag. -/
theorem c1_batch_prediction_is_rowwise_scalar_prediction
    (env : Porter.Env) (cfg : Porter.PorterConfig) (rows : List (List String))
    (cn mn dir : String) (keep : Bool) (tr : List Porter.Event) (ys : List Int)
    (cfg2 : Porter.PorterConfig)
    (h : Porter.predict env cfg (Porter.XInput.batch rows) cn mn dir keep
          = (tr, Porter.POutcome.ok (Porter.PredResult.batch ys), cfg2)) :
    ys.length = rows.length ∧
    ∀ i (hi : i < rows.length) (hy : i < ys.length),
      ∃ tr2,
        Porter.predict env cfg (Porter.XInput.single (rows.get ⟨i, hi⟩)) cn mn dir keep
          = (tr2, Porter.POutcome.ok (Porter.PredResult.single (ys.get ⟨i, hy⟩)), cfg) := by
  unfold Porter.predict at h
  split at h
  · simp at h
  · simp at h
  · rename_i hdp
    split at h
    · rename_i hm
      rw [show (Porter.XInput.batch rows) = Porter.XInput.batch rows from rfl] at h
      dsimp only at h
      split at h
      · simp at h
      · rename_i trR ys0 hrec
        simp only [Prod.mk.injEq, Porter.POutcome.ok.injEq,
                   Porter.PredResult.batch.injEq] at h
        obtain ⟨-, rfl, rfl⟩ := h
        obtain ⟨hlen, hidx⟩ :=
          runRows_ok_spec env (Porter.execArgsFor cfg cn) rows trR ys0 hrec
        refine ⟨hlen, ?_⟩
        intro i hi hy
        refine ⟨Porter.depsTrace env cfg ++
          (Porter.setupEvents env cfg cn mn dir ++
            Porter.Event.spawnExec (Porter.execArgsFor cfg cn ++
              List.map pyStrip (rows.get ⟨i, hi⟩)) ::
            Porter.cleanupEvents dir keep), ?_⟩
        unfold Porter.predict
        rw [hdp]
        dsimp only
        rw [if_pos hm]
        rw [hidx i hi hy]
        simp [List.append_assoc]
    · simp at h

/-- Witness for C1 at a concrete two-row batch. -/
theorem c1_batch_prediction_is_rowwise_scalar_prediction_witness :
    ([3, 4] : List Int).length = ([["7"], ["8", "9"]] : List (List String)).length
    ∧ ∀ i (hi : i < ([["7"], ["8", "9"]] : List (List String)).length)
        (hy : i < ([3, 4] : List Int).length),
        ∃ tr2, Porter.predict Porter.goodEnv Porter.cfgJs
            (Porter.XInput.single (([["7"], ["8", "9"]] : List (List String)).get ⟨i, hi⟩))
            "Brain" "predict" "tmp" false
          = (tr2,
             Porter.POutcome.ok (Porter.PredResult.single (([3, 4] : List Int).get ⟨i, hy⟩)),
             Porter.cfgJs) :=
  c1_batch_prediction_is_rowwise_scalar_prediction Porter.goodEnv Porter.cfgJs
    [["7"], ["8", "9"]] "Brain" "predict" "tmp" false
    [Porter.Event.spawnProbe "if hash node 2/dev/null; then echo 1; else echo 0; fi",
     Porter.Event.spawnProbe "if hash node 2/dev/null; then echo 1; else echo 0; fi",
     Porter.Event.spawnProbe "if hash node 2/dev/null; then echo 1; else echo 0; fi",
     Porter.Event.spawnRm "tmp",
     Porter.Event.spawnMkdir "tmp",
     Porter.Event.writeFile "tmp/brain.js" "model",
     Porter.Event.spawnExec ["node", "brain.js", "7"],
     Porter.Event.spawnExec ["node", "brain.js", "8", "9"],
     Porter.Event.spawnRm "tmp"]
    [3, 4] Porter.cfgJs (by decide)

/-- Witness for the amended C3 at a concrete configuration. -/
theorem c3_amended_method_error_before_files_after_probes_witness :
    Porter.initPorter true true "js" ["predict_proba"] "predict"
      = Except.error Porter.InitError.unsupportedMethod
    ∧ (List.replicate 3 (Porter.Event.spawnProbe
          "if hash node 2/dev/null; then echo 1; else echo 0; fi")).all
        Porter.isProbeEvent = true :=
  ⟨c3_amended_method_error_before_files_after_probes.1 "js" ["predict_proba"] "predict"
     (by decide),
   c3_amended_method_error_before_files_after_probes.2 Porter.goodEnv Porter.cfgNoPredict
     (Porter.XInput.single ["1"]) "Brain" "predict" "tmp" false
     (List.replicate 3 (Porter.Event.spawnProbe
        "if hash node 2/dev/null; then echo 1; else echo 0; fi"))
     Porter.cfgNoPredict (by decide)⟩

/-- Witness for the amended C6 at concrete successful and failing calls. -/
theorem c6_amended_workspace_deleted_on_success_only_witness :
    Porter.dirStateAfter "tmp" true
      [Porter.Event.spawnProbe "if hash node 2/dev/null; then echo 1; else echo 0; fi",
       Porter.Event.spawnProbe "if hash node 2/dev/null; then echo 1; else echo 0; fi",
       Porter.Event.spawnProbe "if hash node 2/dev/null; then echo 1; else echo 0; fi",
       Porter.Event.spawnRm "tmp",
       Porter.Event.spawnMkdir "tmp",
       Porter.Event.writeFile "tmp/brain.js" "model",
       Porter.Event.spawnExec ["node", "brain.js", "1"],
       Porter.Event.spawnRm "tmp"] = false
    ∧ Porter.dirStateAfter "tmp" false
      [Porter.Event.spawnProbe "if hash node 2/dev/null; then echo 1; else echo 0; fi",
       Porter.Event.spawnProbe "if hash node 2/dev/null; then echo 1; else echo 0; fi",
       Porter.Event.spawnProbe "if hash node 2/dev/null; then echo 1; else echo 0; fi",
       Porter.Event.spawnRm "tmp",
       Porter.Event.spawnMkdir "tmp",
       Porter.Event.writeFile "tmp/brain.js" "model",
       Porter.Event.spawnExec ["node", "brain.js", "1"]] = true :=
  ⟨c6_amended_workspace_deleted_on_success_only.1 Porter.goodEnv Porter.cfgJs
     (Porter.XInput.single ["1"]) "Brain" "predict" "tmp"
     [Porter.Event.spawnProbe "if hash node 2/dev/null; then echo 1; else echo 0; fi",
      Porter.Event.spawnProbe "if hash node 2/dev/null; then echo 1; else echo 0; fi",
      Porter.Event.spawnProbe "if hash node 2/dev/null; then echo 1; else echo 0; fi",
      Porter.Event.spawnRm "tmp",
      Porter.Event.spawnMkdir "tmp",
      Porter.Event.writeFile "tmp/brain.js" "model",
      Porter.Event.spawnExec ["node", "brain.js", "1"],
      Porter.Event.spawnRm "tmp"]
     (Porter.PredResult.single 3) Porter.cfgJs true (by decide),
   c6_amended_workspace_deleted_on_success_only.2 Porter.badEnv Porter.cfgJs
     (Porter.XInput.single ["1"]) "Brain" "predict" "tmp" false
     [Porter.Event.spawnProbe "if hash node 2/dev/null; then echo 1; else echo 0; fi",
      Porter.Event.spawnProbe "if hash node 2/dev/null; then echo 1; else echo 0; fi",
      Porter.Event.spawnProbe "if hash node 2/dev/null; then echo 1; else echo 0; fi",
      Porter.Event.spawnRm "tmp",
      Porter.Event.spawnMkdir "tmp",
      Porter.Event.writeFile "tmp/brain.js" "model",
      Porter.Event.spawnExec ["node", "brain.js", "1"]]
     Porter.cfgJs false (by decide)⟩

/-- Witness for C9 at a concrete failing call with the keep flag set. -/
theorem c9_predict_unconditionally_clears_workspace_witness :
    ∃ pre post,
      [Porter.Event.spawnProbe "if hash node 2/dev/null; then echo 1; else echo 0; fi",
       Porter.Event.spawnProbe "if hash node 2/dev/null; then echo 1; else echo 0; fi",
       Porter.Event.spawnProbe "if hash node 2/dev/null; then echo 1; else echo 0; fi",
       Porter.Event.spawnRm "tmp",
       Porter.Event.spawnMkdir "tmp",
       Porter.Event.writeFile "tmp/brain.js" "model",
       Porter.Event.spawnExec ["node", "brain.js", "1"]]
        = pre ++ [Porter.Event.spawnRm "tmp", Porter.Event.spawnMkdir "tmp"] ++ post :=
  c9_predict_unconditionally_clears_workspace Porter.badEnv Porter.cfgJs
    (Porter.XInput.single ["1"]) "Brain" "predict" "tmp" true
    [Porter.Event.spawnProbe "if hash node 2/dev/null; then echo 1; else echo 0; fi",
     Porter.Event.spawnProbe "if hash node 2/dev/null; then echo 1; else echo 0; fi",
     Porter.Event.spawnProbe "if hash node 2/dev/null; then echo 1; else echo 0; fi",
     Porter.Event.spawnRm "tmp",
     Porter.Event.spawnMkdir "tmp",
     Porter.Event.writeFile "tmp/brain.js" "model",
     Porter.Event.spawnExec ["node", "brain.js", "1"]]
    Porter.POutcome.errExec Porter.cfgJs (by decide) (by decide) (by decide)
